import Mathlib

/-!
# Verification of the palantir media-sync server core

A shallow embedding of the server's core data model and operations,
translated from the Rust source (`src/playback.rs`, `src/room.rs`,
`src/session.rs`, `src/connection.rs`, `src/api_access.rs`), together with
theorems settling the specification claims about them.

Modelling conventions:
* `u64` timestamps are `Nat` with explicit saturation at `0` and
  `2^64 - 1` (Rust's `u64::saturating_add_signed`); `i64` clock offsets
  are `Int`, and the release-profile two's-complement wrap of unary
  negation at `i64::MIN` is modelled explicitly.
* Rust `HashMap<SessionId, _>` fields are association lists
  `List (Nat × _)`; the map's key-uniqueness is carried as a `Nodup`
  hypothesis where a theorem needs it, and iteration order is the list
  order (the source iterates in an arbitrary order, so every theorem
  below is stated so that it holds for any order).
* Message delivery is modelled on the happy path: every session inbox is
  live and every send succeeds (`send_message` returns `Ok(true)`).  The
  failure branches of the source (weak-handle upgrade failure, transport
  errors) are then never taken and are omitted; no claim settled here
  concerns delivery failure.
* Emitted messages are collected as a list of
  (recipient session id, message) pairs, in emission order.
* The `f32` field `PlaybackState.time` is never computed with by the
  source operations under study (it is only copied), so it is carried
  opaquely as its raw bit pattern (a `Nat`).
-/

/-! ## u64 / i64 arithmetic -/

/-- Largest value of Rust's `u64`. -/
def u64Max : Nat := 2 ^ 64 - 1

/-- Smallest value of Rust's `i64`. -/
def i64Min : Int := -(2 ^ 63)

/-- Rust's `u64::saturating_add_signed`: add a signed offset to an
unsigned value, clamping at `0` and at `u64::MAX`. -/
def satAddSigned (x : Nat) (d : Int) : Nat :=
  if (x : Int) + d < 0 then 0
  else if (x : Int) + d > (u64Max : Int) then u64Max
  else ((x : Int) + d).toNat

/-- Unary negation of an `i64` in a Rust release build: two's-complement
wrapping, so `-i64::MIN = i64::MIN`. -/
def i64NegWrap (o : Int) : Int :=
  if o = i64Min then i64Min else -o

/-- Clamp an integer into the `u64` range (the value the spec's words
"clamps at 0 and at the maximum u64 value" denote). -/
def clampU64 (v : Int) : Nat :=
  if v < 0 then 0
  else if v > (u64Max : Int) then u64Max
  else v.toNat

/-! ## Sessions (from `src/session.rs`) -/

/-- The data of `SessionHandle` that the room and playback code reads:
its id, display name and the ping-measured clock offset
(`SessionHandle::time_offset`, signed milliseconds). -/
structure SessionHandle where
  id : Nat
  name : String
  timeOffset : Int
deriving DecidableEq, Repr

/-! ## Playback (from `src/playback.rs`) -/

/-- `PlaybackSource`. -/
structure PlaybackSource where
  title : String
  pageHref : String
  frameHref : String
  elementQuery : String
deriving DecidableEq, Repr

/-- `PlaybackState`; `timestamp` is a `u64` of milliseconds, `time` is an
`f32` carried opaquely as its bit pattern. -/
structure PlaybackState where
  timestamp : Nat
  playing : Bool
  time : Nat
deriving DecidableEq, Repr

/-- `PlaybackState::normalize_offset`: shift the timestamp by the negated
source offset, saturating (`self.timestamp.saturating_add_signed(-source_offset)`). -/
def PlaybackState.normalize_offset (s : PlaybackState) (sourceOffset : Int) : PlaybackState :=
  { s with timestamp := satAddSigned s.timestamp (i64NegWrap sourceOffset) }

/-- `PlaybackState::incorporate_offset`: shift the timestamp by the
destination offset, saturating. -/
def PlaybackState.incorporate_offset (s : PlaybackState) (destOffset : Int) : PlaybackState :=
  { s with timestamp := satAddSigned s.timestamp destOffset }

/-- `StopReason`. -/
inductive StopReason where
  | HostError
  | StoppedByHost
  | Superseded
deriving DecidableEq, Repr

/-- `DisconnectReason`. -/
inductive DisconnectReason where
  | User
  | Stopped (reason : StopReason)
  | SubscriberError
deriving DecidableEq, Repr

/-- `PlaybackInfo`. -/
structure PlaybackInfo where
  host : String
  source : Option PlaybackSource
deriving DecidableEq, Repr

/-! ## Room data model (from `src/room.rs`), as far as the session
messages need it -/

/-- `UserRole`. -/
inductive UserRole where
  | Host
  | Guest
  | Spectator
deriving DecidableEq, Repr

/-- `RoomCloseReason`. -/
inductive RoomCloseReason where
  | ClosedByHost
  | ServerError
deriving DecidableEq, Repr

/-- `UserData`: one user in a `RoomState` snapshot. -/
structure UserData where
  id : Nat
  name : String
  role : UserRole
deriving DecidableEq, Repr

/-- `RoomState`: the snapshot the room broadcasts. -/
structure RoomState where
  id : Nat
  name : String
  password : String
  playbackInfo : Option PlaybackInfo
  users : List UserData
deriving DecidableEq, Repr

/-- The session messages emitted by the playback and room code
(`SessionMsg` in `src/session.rs`). -/
inductive SessionMsg where
  | RoomStateMsg (st : RoomState)
  | RoomClosed (reason : RoomCloseReason)
  | PlaybackHosting
  | PlaybackAvailable (info : PlaybackInfo)
  | PlaybackStarted
  | PlaybackConnected
  | PlaybackSync (state : PlaybackState)
  | PlaybackStopped (reason : StopReason)
  | PlaybackDisconnected (reason : DisconnectReason)
deriving DecidableEq, Repr

/-- `PlaybackRequest`. -/
inductive PlaybackRequest where
  | Start (source : PlaybackSource)
  | Disconnect (reason : DisconnectReason)
  | Stop (reason : StopReason)
  | Sync (state : PlaybackState)
deriving DecidableEq, Repr

/-- A message sent to a session's inbox: (recipient session id, message). -/
abbrev Emit := Nat × SessionMsg

/-- `Playback`: the playback coordinator's state. `subscribers` models the
`HashMap<SessionId, SessionHandle>` as an association list. -/
structure Playback where
  running : Bool
  source : Option PlaybackSource
  host : SessionHandle
  subscribers : List (Nat × SessionHandle)
deriving DecidableEq, Repr

/-- Association-list lookup, first match (the `HashMap::get` of a map
whose keys are unique). -/
def lookupKey {α : Type} (l : List (Nat × α)) (k : Nat) : Option α :=
  match l with
  | [] => none
  | (k', v) :: rest => if k' = k then some v else lookupKey rest k

/-- `HashMap::contains_key`. -/
def hasKey {α : Type} (l : List (Nat × α)) (k : Nat) : Bool :=
  match l with
  | [] => false
  | (k', _) :: rest => if k' = k then true else hasKey rest k

/-- `HashMap::remove` (drops every entry with the key; for the unique-key
lists the source builds this removes exactly one entry). -/
def removeKey {α : Type} (l : List (Nat × α)) (k : Nat) : List (Nat × α) :=
  l.filter (fun p => p.1 ≠ k)

namespace Playback

/-- `Playback::new`. -/
def new (host : SessionHandle) : Playback :=
  { running := false, source := none, host := host, subscribers := [] }

/-- `Playback::get_info`. -/
def get_info (p : Playback) : PlaybackInfo :=
  { source := p.source, host := p.host.name }

/-- `Playback::stop`.  Faithful to the source: the guard returns early
when `running` is false, the subscribers are each sent
`PlaybackDisconnected(Stopped(reason))` and cleared, the host is sent
`PlaybackStopped(reason)` — and `running` is *not* reset. -/
def stop (p : Playback) (reason : StopReason) : Playback × List Emit :=
  if !p.running then (p, [])
  else
    ({ p with source := none, subscribers := [] },
     p.subscribers.map (fun e => (e.1, SessionMsg.PlaybackDisconnected (.Stopped reason)))
       ++ [(p.host.id, SessionMsg.PlaybackStopped reason)])

/-- `Playback::start` (sends succeed, so the `HostError` auto-stop branch
is not taken). -/
def start (p : Playback) (source : PlaybackSource) : Playback × List Emit :=
  if p.running then (p, [])
  else
    let p' := { p with running := true, source := some source }
    (p', (p'.host.id, SessionMsg.PlaybackStarted)
          :: p'.subscribers.map (fun e => (e.1, SessionMsg.PlaybackAvailable p'.get_info)))

/-- `Playback::connect`. -/
def connect (p : Playback) (user : SessionHandle) : Except String (Playback × List Emit) :=
  if !p.running then
    .error "Tried to connect to a playback that isn't running!"
  else if user.id = p.host.id then
    .error "The playback host can't connect to their own playback"
  else
    .ok ({ p with subscribers := p.subscribers ++ [(user.id, user)] },
         [(user.id, SessionMsg.PlaybackConnected)])

/-- `Playback::disconnect`. -/
def disconnect (p : Playback) (id : Nat) (reason : DisconnectReason) : Playback × List Emit :=
  match lookupKey p.subscribers id with
  | some _ =>
      ({ p with subscribers := removeKey p.subscribers id },
       [(id, SessionMsg.PlaybackDisconnected reason)])
  | none => (p, [])

/-- `send_sync_msg`: re-shift the normalized state by the destination's
offset and send it as `PlaybackSync`. -/
def send_sync_msg (session : SessionHandle) (state : PlaybackState) : Emit :=
  (session.id, SessionMsg.PlaybackSync (state.incorporate_offset session.timeOffset))

/-- `Playback::sync` (sends succeed, so the host-failure `Stop` and the
errored-subscriber disconnects are not taken). -/
def sync (p : Playback) (id : Nat) (state : PlaybackState) : Playback × List Emit :=
  let normalized_state :=
    if id = p.host.id then state.normalize_offset p.host.timeOffset
    else match lookupKey p.subscribers id with
      | some source => state.normalize_offset source.timeOffset
      | none => state
  let hostMsgs := if id ≠ p.host.id then [send_sync_msg p.host normalized_state] else []
  let subMsgs :=
    (p.subscribers.filter (fun e => e.1 ≠ id)).map
      (fun e => send_sync_msg e.2 normalized_state)
  (p, hostMsgs ++ subMsgs)

/-- `Playback::handle_request`: the participation guard, then dispatch. -/
def handle_request (p : Playback) (sessionId : Nat) (request : PlaybackRequest) :
    Except String (Playback × List Emit) :=
  let isHost := sessionId = p.host.id
  if !isHost && !hasKey p.subscribers sessionId then
    .error "Users who are neither the playback host nor a subscriber cannot send playback requests"
  else
    match request with
    | .Start source =>
        if !isHost then .error "Only the playback host can start playback"
        else .ok (p.start source)
    | .Disconnect reason => .ok (p.disconnect sessionId reason)
    | .Stop reason =>
        if !isHost then .error "Only the playback host can stop playback"
        else .ok (p.stop reason)
    | .Sync state => .ok (p.sync sessionId state)

end Playback

/-! ## Room actor (from `src/room.rs`) -/

/-- `User`: a room member (role and session handle). -/
structure RoomUser where
  role : UserRole
  session : SessionHandle
deriving DecidableEq, Repr

/-- `Room`: the state owned by the room actor.  `users` models the
`HashMap<SessionId, User>` as an association list; the channels of the
actor are not part of the state model. -/
structure Room where
  id : Nat
  running : Bool
  name : String
  password : String
  users : List (Nat × RoomUser)
  playback : Option Playback
deriving DecidableEq, Repr

/-- The user-map update performed by `Room::set_role`
(`user.role = role` on the entry with the given key). -/
def setRoleInUsers (l : List (Nat × RoomUser)) (role : UserRole) (k : Nat) :
    List (Nat × RoomUser) :=
  l.map (fun (e : Nat × RoomUser) =>
    if e.1 = k then (e.1, { e.2 with role := role }) else e)

namespace Room

/-- `Room::get_state`. -/
def get_state (r : Room) : RoomState :=
  { id := r.id
    name := r.name
    password := r.password
    playbackInfo := r.playback.map Playback.get_info
    users := r.users.map (fun e => { id := e.1, name := e.2.session.name, role := e.2.role }) }

/-- `Room::broadcast_msg` over a copy of the user-id set (sends succeed,
so the delivery-failure auto-leave branch of `send_user_msg` is not
taken). -/
def broadcast_msg (r : Room) (msg : SessionMsg) : Room × List Emit :=
  (r, r.users.map (fun e => (e.1, msg)))

/-- `Room::broadcast_state`. -/
def broadcast_state (r : Room) : Room × List Emit :=
  r.broadcast_msg (SessionMsg.RoomStateMsg r.get_state)

/-- `Room::close`: clears `running` (so the actor loop exits) and
broadcasts `RoomClosed(reason)` to the remaining users. -/
def close (r : Room) (reason : RoomCloseReason) : Room × List Emit :=
  ({ r with running := false }).broadcast_msg (SessionMsg.RoomClosed reason)

/-- `Room::set_role`: silently a no-op for an unknown user; otherwise
updates the role and broadcasts the new state. -/
def set_role (r : Room) (role : UserRole) (sessionId : Nat) : Room × List Emit :=
  match lookupKey r.users sessionId with
  | none => (r, [])
  | some _ =>
      Room.broadcast_state { r with users := setRoleInUsers r.users role sessionId }

/-- The loop body of `Room::choose_new_host_id`: return the first user
with role `Host` or `Guest`; otherwise remember the first user seen
(`new_host_id.get_or_insert(*id)`) as the fallback. -/
def choose_new_host_aux : List (Nat × RoomUser) → Option Nat → Option Nat
  | [], acc => acc
  | (id, u) :: rest, acc =>
      if u.role = UserRole.Host ∨ u.role = UserRole.Guest then some id
      else choose_new_host_aux rest (some (acc.getD id))

/-- `Room::choose_new_host_id`. -/
def choose_new_host_id (r : Room) : Option Nat :=
  choose_new_host_aux r.users none

/-- `Room::leave`: remove the user; close the emptied room with
`ClosedByHost`; else run host succession when no `Host` remains (the
`set_role` cannot fail in the happy-path model, so the `ServerError`
close after a failed `set_role` is not taken); finally broadcast the new
state. -/
def leave (r : Room) (sessionId : Nat) : Room × List Emit :=
  match lookupKey r.users sessionId with
  | none => (r, [])
  | some _ =>
    let r1 : Room := { r with users := removeKey r.users sessionId }
    if r1.users.isEmpty then
      r1.close RoomCloseReason.ClosedByHost
    else if r1.users.all (fun e => e.2.role ≠ UserRole.Host) then
      match r1.choose_new_host_id with
      | none => r1.close RoomCloseReason.ServerError
      | some newHostId =>
          let s := r1.set_role UserRole.Host newHostId
          let b := s.1.broadcast_state
          (b.1, s.2 ++ b.2)
    else
      r1.broadcast_state

/-- `Room::join`: reject duplicates, insert, broadcast. -/
def join (r : Room) (role : UserRole) (session : SessionHandle) :
    Except String (Room × List Emit) :=
  if hasKey r.users session.id then .error "Already joined this room"
  else .ok (Room.broadcast_state
    { r with users := r.users ++ [(session.id, { role := role, session := session })] })

end Room

/-! ## Room registry and the session-level join (from `src/room.rs`
`RoomManager` and `src/session.rs` `Session::join_room`) -/

/-- The registry data of one `RoomController`: its password and the room
actor's state (commands are delivered synchronously in this model). -/
structure RoomEntry where
  password : String
  room : Room
deriving DecidableEq, Repr

/-- `RoomManager`: the process-wide `HashMap<RoomId, RoomController>`. -/
structure RoomManager where
  room_controllers : List (Nat × RoomEntry)
deriving DecidableEq, Repr

namespace RoomManager

/-- `RoomManager::get_room_password`: `None` when the id is absent. -/
def get_room_password (m : RoomManager) (id : Nat) : Option String :=
  (lookupKey m.room_controllers id).map RoomEntry.password

/-- `RoomManager::join_room`: look the controller up; absent → `None`;
otherwise join the session as `Guest` (`Room::join` can still reject a
duplicate member, which propagates as an error). -/
def join_room (m : RoomManager) (id : Nat) (session : SessionHandle) :
    Except String (Option (RoomManager × List Emit)) :=
  match lookupKey m.room_controllers id with
  | none => .ok none
  | some entry =>
      match entry.room.join UserRole.Guest session with
      | .error e => .error e
      | .ok (room', emits) =>
          .ok (some
            ({ room_controllers :=
                m.room_controllers.map (fun (e : Nat × RoomEntry) =>
                  if e.1 = id then (e.1, { e.2 with room := room' }) else e) },
             emits))

end RoomManager

/-- What `Session::join_room` replies to the peer. -/
inductive JoinReply where
  | joinAck
  | errorMsg (message : String)
  | roomNotFound
deriving DecidableEq, Repr

/-- `Session::join_room` (after the initial `leave_room`): the password
precheck `Some(password) != room_mgr.get_room_password(room_id)` runs
*before* the registry lookup, and an absent room makes
`get_room_password` return `None`, which never equals `Some(password)`. -/
def session_join_room (m : RoomManager) (roomId : Nat) (password : String)
    (session : SessionHandle) : RoomManager × JoinReply :=
  if some password ≠ m.get_room_password roomId then
    (m, JoinReply.errorMsg "Incorrect password")
  else
    match m.join_room roomId session with
    | .error e => (m, JoinReply.errorMsg e)
    | .ok none => (m, JoinReply.roomNotFound)
    | .ok (some (m', _)) => (m', JoinReply.joinAck)

/-! ## Connection (from `src/connection.rs`) -/

/-- `CloseReason`. -/
inductive CloseReason where
  | ServerError
  | Unauthorized
deriving DecidableEq, Repr

/-- The wire messages a `Connection` emits while closing. -/
inductive WireMsg where
  | ConnectionClosed (reason : CloseReason) (message : String)
deriving DecidableEq, Repr

/-- The `Connection` state that `close` reads and writes: the `open`
flag (`open` is a Lean keyword, so the field carries the name of the
accessor `Connection::is_open`). -/
structure Connection where
  isOpen : Bool
deriving DecidableEq, Repr

namespace Connection

/-- `Connection::PING_TIMEOUT`, in milliseconds: the source is
`Duration::from_secs(5)`. -/
def PING_TIMEOUT_MS : Nat := 5000

/-- `Connection::LOGIN_TIMEOUT`, in milliseconds (`Duration::from_secs(3)`). -/
def LOGIN_TIMEOUT_MS : Nat := 3000

/-- `Connection::close`: a no-op when already closed; otherwise send one
`ConnectionClosed` message and mark the connection closed
(`close_silent`). -/
def close (c : Connection) (reason : CloseReason) (message : String) :
    Connection × List WireMsg :=
  if !c.isOpen then (c, [])
  else ({ isOpen := false }, [WireMsg.ConnectionClosed reason message])

end Connection

/-- `PingResult`. -/
structure PingResult where
  latency : Nat
  time_offset : Int
deriving DecidableEq, Repr

/-- The three outcomes of `Connection::ping` as matched by
`Session::ping`: a pong with a measured offset (`Ok(Some(_))`), a closed
connection (`Ok(None)`), or the `PingTimeout` error (`Err(_)`, raised
when no pong arrives within `Connection::PING_TIMEOUT_MS`). -/
inductive PingOutcome where
  | pong (result : PingResult)
  | connectionClosed
  | pingTimeout
deriving DecidableEq, Repr

/-- `Session::ping`: the stored clock offset after the ping, and whether
the session keeps running.  Only a received pong stores a new offset; a
closed connection is handled elsewhere and a timeout is merely logged. -/
def session_ping (storedOffset : Int) (outcome : PingOutcome) : Int × Bool :=
  match outcome with
  | .pong result => (result.time_offset, true)
  | .connectionClosed => (storedOffset, true)
  | .pingTimeout => (storedOffset, true)

/-! ## Access policy (from `src/api_access.rs`) -/

/-- `ApiPermissions`. -/
structure ApiPermissions where
  connect : Bool
  host : Bool
deriving DecidableEq, Repr

/-- `ApiKey`. -/
structure ApiKey where
  key : String
  permissions : ApiPermissions
deriving DecidableEq, Repr

/-- `ApiAccessPolicy`. -/
structure ApiAccessPolicy where
  restrict_connect : Bool
  restrict_host : Bool
deriving DecidableEq, Repr

/-- `ApiAccessConfig`. -/
structure ApiAccessConfig where
  api_policy : ApiAccessPolicy
  api_keys : List ApiKey
deriving DecidableEq, Repr

/-- The `default_perms` baseline computed inside
`ApiAccessManager::get_permissions`. -/
def default_perms (cfg : ApiAccessConfig) : ApiPermissions :=
  { connect := !cfg.api_policy.restrict_connect
    host := !cfg.api_policy.restrict_host }

/-- `ApiAccessManager::get_permissions`. -/
def get_permissions (cfg : ApiAccessConfig) (key : Option String) : ApiPermissions :=
  match key with
  | none => default_perms cfg
  | some k =>
      match cfg.api_keys.find? (fun kc => kc.key == k) with
      | none => default_perms cfg
      | some key_config =>
          { connect := !cfg.api_policy.restrict_connect || key_config.permissions.connect
            host := !cfg.api_policy.restrict_host || key_config.permissions.host }

/-! ## Helper lemmas -/

/-- Saturating addition agrees with exact integer addition whenever the
exact result is in the `u64` range. -/
theorem satAddSigned_eq_exact (x : Nat) (d : Int) (hlo : 0 ≤ (x : Int) + d)
    (hhi : (x : Int) + d ≤ (u64Max : Int)) :
    ((satAddSigned x d : Nat) : Int) = (x : Int) + d := by
  unfold satAddSigned
  rw [if_neg (by omega), if_neg (by omega)]
  exact Int.toNat_of_nonneg hlo

/-- A successful association-list lookup is a membership. -/
theorem lookupKey_mem {α : Type} {l : List (Nat × α)} {k : Nat} {v : α}
    (h : lookupKey l k = some v) : (k, v) ∈ l := by
  induction l with
  | nil => simp [lookupKey] at h
  | cons e rest ih =>
      obtain ⟨ke, ve⟩ := e
      by_cases hk : ke = k
      · subst hk
        simp [lookupKey] at h
        subst h
        exact List.mem_cons_self _ _
      · simp [lookupKey, hk] at h
        exact List.mem_cons_of_mem _ (ih h)

/-- On a list with unique keys a membership determines the lookup. -/
theorem lookupKey_of_mem_nodup {α : Type} {l : List (Nat × α)} {k : Nat} {v : α}
    (hnd : (l.map Prod.fst).Nodup) (hmem : (k, v) ∈ l) : lookupKey l k = some v := by
  induction l with
  | nil => simp at hmem
  | cons e rest ih =>
      obtain ⟨ke, ve⟩ := e
      simp only [List.map_cons, List.nodup_cons] at hnd
      rcases List.mem_cons.mp hmem with heq | htail
      · cases heq
        simp [lookupKey]
      · have hk : ke ≠ k := by
          intro hkk
          subst hkk
          exact hnd.1 (List.mem_map.mpr ⟨(ke, v), htail, rfl⟩)
        simp [lookupKey, hk]
        exact ih hnd.2 htail

/-! ## Claim theorems -/

/-- C4 — Access-policy permission computation: with no key, or a key
matching no configured entry, `get_permissions` returns the baseline
`{connect: !restrict_connect, host: !restrict_host}`; a matched entry
contributes each capability by OR with the baseline; and the result is
never below the baseline. -/
theorem get_permissions_spec (cfg : ApiAccessConfig) (key : Option String) :
    (key.bind (fun k => cfg.api_keys.find? (fun kc => kc.key == k)) = none →
        get_permissions cfg key = default_perms cfg)
    ∧ (∀ k kc, key = some k → cfg.api_keys.find? (fun e => e.key == k) = some kc →
        get_permissions cfg key =
          { connect := (default_perms cfg).connect || kc.permissions.connect
            host := (default_perms cfg).host || kc.permissions.host })
    ∧ ((default_perms cfg).connect = true → (get_permissions cfg key).connect = true)
    ∧ ((default_perms cfg).host = true → (get_permissions cfg key).host = true) := by
  rcases key with _ | k
  · refine ⟨fun _ => rfl, ?_, fun h => h, fun h => h⟩
    intro k kc hk
    exact absurd hk (by simp)
  · rcases hf : cfg.api_keys.find? (fun e => e.key == k) with _ | kc
    · refine ⟨fun _ => by simp [get_permissions, hf], ?_, ?_, ?_⟩
      · intro k' kc' hk' hfind
        cases hk'
        rw [hf] at hfind
        cases hfind
      · intro h
        simpa [get_permissions, hf] using h
      · intro h
        simpa [get_permissions, hf] using h
    · refine ⟨fun hnone => ?_, ?_, ?_, ?_⟩
      · simp [hf] at hnone
      · intro k' kc' hk' hfind
        cases hk'
        rw [hf] at hfind
        cases hfind
        simp [get_permissions, hf, default_perms]
      · intro h
        simp [default_perms] at h
        simp [get_permissions, hf, h]
      · intro h
        simp [default_perms] at h
        simp [get_permissions, hf, h]

/-- C4 witness: a restrictive policy with one configured key `"AAAAA"`
granting `connect`; the matched-entry clause and the never-below-baseline
clauses evaluated concretely. -/
theorem get_permissions_spec_witness :
    get_permissions ⟨⟨true, false⟩, [⟨"AAAAA", ⟨true, false⟩⟩]⟩ (some "AAAAA") =
      { connect := (default_perms ⟨⟨true, false⟩, [⟨"AAAAA", ⟨true, false⟩⟩]⟩).connect || true
        host := (default_perms ⟨⟨true, false⟩, [⟨"AAAAA", ⟨true, false⟩⟩]⟩).host || false }
    ∧ (get_permissions ⟨⟨true, false⟩, [⟨"AAAAA", ⟨true, false⟩⟩]⟩ (some "AAAAA")).host = true := by
  have h := get_permissions_spec ⟨⟨true, false⟩, [⟨"AAAAA", ⟨true, false⟩⟩]⟩ (some "AAAAA")
  exact ⟨h.2.1 "AAAAA" ⟨"AAAAA", ⟨true, false⟩⟩ rfl (by decide), h.2.2.2 (by decide)⟩

/-- C6 counterexample — the claim says the ping timeout is 1 second; the
source constant `Connection::PING_TIMEOUT` is `Duration::from_secs(5)`,
i.e. 5000 ms, not 1000 ms. -/
theorem ping_timeout_not_one_second :
    Connection.PING_TIMEOUT_MS = 5000 ∧ Connection.PING_TIMEOUT_MS ≠ 1000 := by
  decide

/-- C6 amended — the ping() operation waits at most 5 seconds for the
pong; on `PingTimeout` the session keeps running and its stored clock
offset is unchanged (`Session::ping` only logs the error). -/
theorem ping_timeout_behavior (storedOffset : Int) :
    Connection.PING_TIMEOUT_MS = 5000 ∧
    session_ping storedOffset PingOutcome.pingTimeout = (storedOffset, true) :=
  ⟨rfl, rfl⟩

/-- C8 — Connection close is idempotent: close on a closed connection is
a no-op (no message, no state change), a second close after any close
changes nothing and emits nothing, so the messages of closing twice are
exactly those of closing once. -/
theorem connection_close_idempotent (c : Connection) (r1 r2 : CloseReason) (m1 m2 : String) :
    Connection.close { isOpen := false } r1 m1 = ({ isOpen := false }, []) ∧
    (c.close r1 m1).1.close r2 m2 = ((c.close r1 m1).1, []) ∧
    (c.close r1 m1).2 ++ ((c.close r1 m1).1.close r2 m2).2 = (c.close r1 m1).2 := by
  refine ⟨rfl, ?_, ?_⟩ <;>
    · rcases c with ⟨o⟩
      cases o <;> rfl

/-- C5 — with an empty registry (room id 7 absent) the session-level join
replies with the client error "Incorrect password" and never reaches its
room-not-found branch, because `Some(password)` is compared against
`get_room_password = None` before the lookup; the claim says absence is
surfaced as room-not-found, not as a password error. -/
theorem absent_room_join_replies_incorrect_password :
    session_join_room ⟨[]⟩ 7 "" ⟨1, "b", 0⟩ =
      (⟨[]⟩, JoinReply.errorMsg "Incorrect password") ∧
    RoomManager.join_room ⟨[]⟩ 7 ⟨1, "b", 0⟩ = .ok none := by
  exact ⟨rfl, rfl⟩

/-- C2 — Stop is not idempotent in the source: from a running playback
with no subscribers, the first Stop sends `PlaybackStopped` to the host
but leaves `running = true` (`Playback::stop` never clears it), so a
second Stop sends `PlaybackStopped` again instead of being a no-op, and
the playback is still "running" afterwards. -/
theorem stop_not_idempotent :
    (((⟨true, some ⟨"t", "p", "f", "e"⟩, ⟨0, "h", 0⟩, []⟩ : Playback).stop
        StopReason.StoppedByHost).1.stop StopReason.StoppedByHost).2 =
      [(0, SessionMsg.PlaybackStopped StopReason.StoppedByHost)] ∧
    (((⟨true, some ⟨"t", "p", "f", "e"⟩, ⟨0, "h", 0⟩, []⟩ : Playback).stop
        StopReason.StoppedByHost).1.stop StopReason.StoppedByHost).1.running = true ∧
    ((⟨true, some ⟨"t", "p", "f", "e"⟩, ⟨0, "h", 0⟩, []⟩ : Playback).stop
        StopReason.StoppedByHost).2 =
      [(0, SessionMsg.PlaybackStopped StopReason.StoppedByHost)] := by
  decide

/-- C10 counterexample — at `source_offset = i64::MIN` the negation in
`normalize_offset` wraps (release semantics), so the timestamp `2^63`
with offset `-2^63` comes out as `0` instead of the clamped value
`u64::MAX` that "clamps when the shift would overflow" demands. -/
theorem normalize_offset_wraps_at_i64_min :
    (PlaybackState.normalize_offset ⟨2 ^ 63, false, 0⟩ i64Min).timestamp = 0 ∧
    clampU64 (((2 ^ 63 : Nat) : Int) - i64Min) = u64Max ∧
    (0 : Nat) ≠ u64Max := by
  refine ⟨?_, ?_, by decide⟩
  · simp [PlaybackState.normalize_offset, i64NegWrap, satAddSigned, i64Min, u64Max]
  · simp [clampU64, i64Min, u64Max]

/-- C10 amended — for every offset other than `i64::MIN`,
`normalize_offset` yields the timestamp minus the offset clamped into the
`u64` range, and `incorporate_offset` yields the timestamp plus the
offset clamped likewise (at `i64::MIN` the negation wraps and
`normalize_offset` shifts by `-2^63` instead, still saturating). -/
theorem offset_shifts_saturate (st : PlaybackState) (off : Int) (h : off ≠ i64Min) :
    (st.normalize_offset off).timestamp = clampU64 ((st.timestamp : Int) - off) ∧
    (st.incorporate_offset off).timestamp = clampU64 ((st.timestamp : Int) + off) := by
  constructor
  · simp [PlaybackState.normalize_offset, i64NegWrap, h, satAddSigned, clampU64, sub_eq_add_neg]
  · rfl

/-- C10 witness — timestamp 5 with offset 10: normalization clamps the
underflowing `5 - 10` to `0`, incorporation gives `15`. -/
theorem offset_shifts_saturate_witness :
    ((10 : Int) ≠ i64Min) ∧
    ((⟨5, false, 0⟩ : PlaybackState).normalize_offset 10).timestamp =
      clampU64 (((5 : Nat) : Int) - 10) ∧
    ((⟨5, false, 0⟩ : PlaybackState).incorporate_offset 10).timestamp =
      clampU64 (((5 : Nat) : Int) + 10) :=
  ⟨by decide, offset_shifts_saturate ⟨5, false, 0⟩ 10 (by decide)⟩

/-- C9 — a session that is neither the playback host nor a subscriber is
rejected by `Playback::handle_request` before any dispatch, for every
request variant: the result is the guard's error, so no state changes
and no message is emitted. -/
theorem handle_request_rejects_non_participants (p : Playback) (sid : Nat)
    (req : PlaybackRequest) (hhost : sid ≠ p.host.id)
    (hsub : hasKey p.subscribers sid = false) :
    p.handle_request sid req =
      .error "Users who are neither the playback host nor a subscriber cannot send playback requests" := by
  unfold Playback.handle_request
  simp [hhost, hsub]

/-- C9 witness — session 5 sending Stop to a playback hosted by session 0
with no subscribers. -/
theorem handle_request_rejects_non_participants_witness :
    (5 ≠ (⟨false, none, ⟨0, "h", 0⟩, []⟩ : Playback).host.id) ∧
    hasKey (⟨false, none, ⟨0, "h", 0⟩, []⟩ : Playback).subscribers 5 = false ∧
    (⟨false, none, ⟨0, "h", 0⟩, []⟩ : Playback).handle_request 5
        (PlaybackRequest.Stop StopReason.StoppedByHost) =
      .error "Users who are neither the playback host nor a subscriber cannot send playback requests" :=
  ⟨by decide, by decide,
   handle_request_rejects_non_participants ⟨false, none, ⟨0, "h", 0⟩, []⟩ 5
     (PlaybackRequest.Stop StopReason.StoppedByHost) (by decide) (by decide)⟩

/-- C7 — when a Leave removes the last remaining user, the room is closed
with reason `ClosedByHost`: the Leave is exactly a `Room::close` of the
emptied room and the `running` flag is cleared, for every room state. -/
theorem last_user_leave_closes (r : Room) (sid : Nat)
    (hmem : lookupKey r.users sid ≠ none)
    (hempty : removeKey r.users sid = []) :
    r.leave sid =
      Room.close { r with users := removeKey r.users sid } RoomCloseReason.ClosedByHost ∧
    (r.leave sid).1.running = false := by
  obtain ⟨u, hu⟩ := Option.ne_none_iff_exists'.mp hmem
  have hleave : r.leave sid =
      Room.close { r with users := removeKey r.users sid } RoomCloseReason.ClosedByHost := by
    unfold Room.leave
    rw [hu]
    simp [hempty]
  exact ⟨hleave, by rw [hleave]; rfl⟩

/-- C7 witness — a room holding only user 0, who leaves. -/
theorem last_user_leave_closes_witness :
    (lookupKey ((⟨9, true, "r", "", [(0, ⟨UserRole.Host, ⟨0, "A", 0⟩⟩)], none⟩ : Room)).users 0
        ≠ none) ∧
    removeKey ((⟨9, true, "r", "", [(0, ⟨UserRole.Host, ⟨0, "A", 0⟩⟩)], none⟩ : Room)).users 0
        = [] ∧
    ((⟨9, true, "r", "", [(0, ⟨UserRole.Host, ⟨0, "A", 0⟩⟩)], none⟩ : Room).leave 0).1.running
        = false :=
  ⟨by decide, by decide,
   (last_user_leave_closes ⟨9, true, "r", "", [(0, ⟨UserRole.Host, ⟨0, "A", 0⟩⟩)], none⟩ 0
     (by decide) (by decide)).2⟩

/-- C1 counterexample — timestamp 0 reported by the host (offset +200) to
a subscriber (offset -100): the subscriber is sent timestamp 0 (the
shifts saturate), while the claimed value `T - off(r) + off(d) = -300`
is negative, so no sent timestamp can equal it. -/
theorem sync_timestamp_not_exact_on_underflow :
    ((⟨true, none, ⟨0, "h", 200⟩, [(1, ⟨1, "s", -100⟩)]⟩ : Playback).sync 0 ⟨0, true, 0⟩).2 =
      [(1, SessionMsg.PlaybackSync ⟨0, true, 0⟩)] ∧
    ((0 : Int) ≠ ((0 : Nat) : Int) - 200 + (-100)) := by
  constructor
  · rfl
  · decide

/-- C1 amended — clock-offset normalization for playback sync, with the
saturating `u64` shifts of the source: for every sync request carrying
state with timestamp `T`, reported by a participant `r` (the host, or a
subscriber) with time offset `off(r)`, every recipient `d` other than
`r` — the playback host when `r` is not the host, and every subscriber
except `r` — is sent a sync message whose state is the reported state
with timestamp `satAddSigned (satAddSigned T (i64NegWrap off(r)))
off(d)`; whenever `off(r) ≠ i64::MIN` and both shifts for that recipient
stay inside the `u64` range, that timestamp equals
`T - off(r) + off(d)` exactly (so with host offset +200, subscriber
offset -100 and `T = 1_000_000` reported by the host, the subscriber
receives 999_700). -/
theorem sync_offset_normalization (p : Playback) (st : PlaybackState) (rid : Nat)
    (offR : Int)
    (hrep : (rid = p.host.id ∧ offR = p.host.timeOffset) ∨
      (rid ≠ p.host.id ∧ ∃ src, lookupKey p.subscribers rid = some src ∧
        offR = src.timeOffset)) :
    (rid ≠ p.host.id →
      (p.host.id, SessionMsg.PlaybackSync
        ((st.normalize_offset offR).incorporate_offset p.host.timeOffset))
        ∈ (p.sync rid st).2) ∧
    (∀ sid s, (sid, s) ∈ p.subscribers → sid ≠ rid →
      (s.id, SessionMsg.PlaybackSync
        ((st.normalize_offset offR).incorporate_offset s.timeOffset))
        ∈ (p.sync rid st).2) ∧
    (∀ offD, ((st.normalize_offset offR).incorporate_offset offD).timestamp
      = satAddSigned (satAddSigned st.timestamp (i64NegWrap offR)) offD) ∧
    (∀ offD, offR ≠ i64Min →
      0 ≤ (st.timestamp : Int) - offR →
      (st.timestamp : Int) - offR ≤ (u64Max : Int) →
      0 ≤ (st.timestamp : Int) - offR + offD →
      (st.timestamp : Int) - offR + offD ≤ (u64Max : Int) →
      ((((st.normalize_offset offR).incorporate_offset offD).timestamp : Nat) : Int)
        = (st.timestamp : Int) - offR + offD) := by
  have hmsgs : (p.sync rid st).2 =
      (if rid ≠ p.host.id
        then [Playback.send_sync_msg p.host (st.normalize_offset offR)] else [])
      ++ (p.subscribers.filter (fun e => e.1 ≠ rid)).map
          (fun e => Playback.send_sync_msg e.2 (st.normalize_offset offR)) := by
    rcases hrep with ⟨h1, h2⟩ | ⟨h1, src, hsrc, h2⟩
    · subst h2
      subst h1
      simp [Playback.sync]
    · subst h2
      simp [Playback.sync, h1, hsrc]
  refine ⟨?_, ?_, fun offD => rfl, ?_⟩
  · intro hne
    rw [hmsgs, if_pos hne]
    exact List.mem_append_left _ (List.mem_singleton.mpr rfl)
  · intro sid s hmem hne2
    rw [hmsgs]
    exact List.mem_append_right _ (List.mem_map.mpr ⟨(sid, s),
      List.mem_filter.mpr ⟨hmem, by simpa using hne2⟩, rfl⟩)
  · intro offD hmin hlo hhi hlo2 hhi2
    have hIn : ((satAddSigned st.timestamp (i64NegWrap offR) : Nat) : Int)
        = (st.timestamp : Int) - offR := by
      rw [i64NegWrap, if_neg hmin, satAddSigned_eq_exact _ _ (by omega) (by omega)]
      ring
    show ((satAddSigned (satAddSigned st.timestamp (i64NegWrap offR)) offD : Nat) : Int)
      = (st.timestamp : Int) - offR + offD
    rw [satAddSigned_eq_exact _ _ (by rw [hIn]; omega) (by rw [hIn]; omega), hIn]

/-- C1 witness — the spec's S4 scenario: host offset +200, subscriber
offset -100, `T = 1_000_000` reported by the host; the subscriber is sent
timestamp 999_700, and the exact-value clause evaluates it to
`1_000_000 - 200 + (-100)`. -/
theorem sync_offset_normalization_witness :
    (1, SessionMsg.PlaybackSync ⟨999700, true, 0⟩) ∈
      ((⟨true, none, ⟨0, "H", 200⟩, [(1, ⟨1, "S", -100⟩)]⟩ : Playback).sync 0
        ⟨1000000, true, 0⟩).2 ∧
    ((((⟨1000000, true, 0⟩ : PlaybackState).normalize_offset 200).incorporate_offset
        (-100)).timestamp : Int) = ((1000000 : Nat) : Int) - 200 + (-100) := by
  have h := sync_offset_normalization ⟨true, none, ⟨0, "H", 200⟩, [(1, ⟨1, "S", -100⟩)]⟩
    ⟨1000000, true, 0⟩ 0 200 (Or.inl ⟨rfl, rfl⟩)
  constructor
  · have hm := h.2.1 1 ⟨1, "S", -100⟩ (by decide) (by decide)
    have hstate : ((⟨1000000, true, 0⟩ : PlaybackState).normalize_offset 200).incorporate_offset
        (-100) = ⟨999700, true, 0⟩ := by decide
    rw [hstate] at hm
    exact hm
  · exact h.2.2.2 (-100) (by decide) (by decide) (by decide) (by decide) (by decide)


/-- If some user in the list has role Host or Guest,
`choose_new_host_aux` picks the first such user, whatever the
accumulator. -/
theorem choose_new_host_aux_found (l : List (Nat × RoomUser)) (acc : Option Nat)
    (hg : ∃ e ∈ l, e.2.role = UserRole.Host ∨ e.2.role = UserRole.Guest) :
    ∃ id u, (id, u) ∈ l ∧ (u.role = UserRole.Host ∨ u.role = UserRole.Guest) ∧
      Room.choose_new_host_aux l acc = some id := by
  induction l generalizing acc with
  | nil => simp at hg
  | cons e rest ih =>
      obtain ⟨ke, ue⟩ := e
      by_cases hrole : ue.role = UserRole.Host ∨ ue.role = UserRole.Guest
      · exact ⟨ke, ue, List.mem_cons_self _ _, hrole,
          by simp [Room.choose_new_host_aux, hrole]⟩
      · obtain ⟨e2, he2, hr2⟩ := hg
        rcases List.mem_cons.mp he2 with heq | htail
        · rw [heq] at hr2
          exact absurd hr2 hrole
        · obtain ⟨id, u, hm, hr, heq2⟩ := ih (some (acc.getD ke)) ⟨e2, htail, hr2⟩
          refine ⟨id, u, List.mem_cons_of_mem _ hm, hr, ?_⟩
          rw [Room.choose_new_host_aux, if_neg hrole]
          exact heq2

/-- If no user in the list has role Host or Guest,
`choose_new_host_aux` returns the accumulator when set, else the first
user of the list. -/
theorem choose_new_host_aux_fallback (l : List (Nat × RoomUser)) (acc : Option Nat)
    (hg : ∀ e ∈ l, ¬(e.2.role = UserRole.Host ∨ e.2.role = UserRole.Guest)) :
    Room.choose_new_host_aux l acc =
      (match acc with
       | some k => some k
       | none => l.head?.map Prod.fst) := by
  induction l generalizing acc with
  | nil => cases acc <;> rfl
  | cons e rest ih =>
      obtain ⟨ke, ue⟩ := e
      have hrole := hg (ke, ue) (List.mem_cons_self _ _)
      rw [Room.choose_new_host_aux, if_neg hrole,
        ih (some (acc.getD ke)) (fun e2 he2 => hg e2 (List.mem_cons_of_mem _ he2))]
      cases acc <;> rfl

/-- Looking up the updated key after a `set_role` user-map update returns
the updated value. -/
theorem lookupKey_map_setRole (l : List (Nat × RoomUser)) (k : Nat) (role : UserRole) :
    lookupKey (setRoleInUsers l role k) k =
      (lookupKey l k).map (fun u => { u with role := role }) := by
  unfold setRoleInUsers
  induction l with
  | nil => rfl
  | cons e rest ih =>
      obtain ⟨ke, ue⟩ := e
      by_cases hk : ke = k
      · subst hk
        rw [List.map_cons, if_pos (rfl : (ke, ue).1 = ke)]
        simp [lookupKey]
      · rw [List.map_cons, if_neg (hk : ¬(ke, ue).1 = k)]
        simp only [lookupKey]
        rw [if_neg hk, if_neg hk]
        exact ih

/-- Removing a key keeps the remaining keys unique. -/
theorem removeKey_keys_nodup {α : Type} {l : List (Nat × α)}
    (hnd : (l.map Prod.fst).Nodup) (k : Nat) :
    (((removeKey l k).map Prod.fst)).Nodup :=
  List.Nodup.sublist (List.Sublist.map Prod.fst (List.filter_sublist l)) hnd

/-- The room state returned by a broadcast is the room itself (sends
succeed in this model). -/
theorem Room.broadcast_state_fst (r : Room) : r.broadcast_state.1 = r := rfl

/-- C3 — host succession on Leave: whenever a Leave removes a user and
leaves a non-empty user map with no `Host`, the room promotes a remaining
`Guest` if any exists and otherwise a `Spectator`: the chosen user's role
becomes `Host` in the post-Leave room, and that user (like every
remaining user) is sent the new room state. -/
theorem room_host_succession (r : Room) (sid : Nat)
    (hnd : (r.users.map Prod.fst).Nodup)
    (hmem : lookupKey r.users sid ≠ none)
    (hne1 : removeKey r.users sid ≠ [])
    (hnohost : ∀ e ∈ removeKey r.users sid, e.2.role ≠ UserRole.Host) :
    ∃ hid u,
      lookupKey (removeKey r.users sid) hid = some u ∧
      ((∃ e ∈ removeKey r.users sid, e.2.role = UserRole.Guest) → u.role = UserRole.Guest) ∧
      ((∀ e ∈ removeKey r.users sid, e.2.role ≠ UserRole.Guest) → u.role = UserRole.Spectator) ∧
      lookupKey ((r.leave sid).1).users hid = some { u with role := UserRole.Host } ∧
      (hid, SessionMsg.RoomStateMsg ((r.leave sid).1).get_state) ∈ (r.leave sid).2 := by
  obtain ⟨u0, hu0⟩ := Option.ne_none_iff_exists'.mp hmem
  have hchosen : ∃ hid u, (hid, u) ∈ removeKey r.users sid ∧
      Room.choose_new_host_aux (removeKey r.users sid) none = some hid ∧
      ((∃ e ∈ removeKey r.users sid, e.2.role = UserRole.Guest) → u.role = UserRole.Guest) ∧
      ((∀ e ∈ removeKey r.users sid, e.2.role ≠ UserRole.Guest) →
        u.role = UserRole.Spectator) := by
    by_cases hg : ∃ e ∈ removeKey r.users sid, e.2.role = UserRole.Guest
    · obtain ⟨id, u, hm, hr, heq⟩ := choose_new_host_aux_found (removeKey r.users sid) none
        (by obtain ⟨e, he, hge⟩ := hg; exact ⟨e, he, Or.inr hge⟩)
      have hguest : u.role = UserRole.Guest := hr.resolve_left (hnohost (id, u) hm)
      exact ⟨id, u, hm, heq, fun _ => hguest, fun hng => absurd hguest (hng (id, u) hm)⟩
    · push_neg at hg
      have hfall := choose_new_host_aux_fallback (removeKey r.users sid) none
        (fun e he hor => hor.elim (hnohost e he) (hg e he))
      obtain ⟨e0, rest0, hsplit⟩ := List.exists_cons_of_ne_nil hne1
      have hm0 : e0 ∈ removeKey r.users sid := by rw [hsplit]; exact List.mem_cons_self _ _
      have hrole : e0.2.role = UserRole.Spectator := by
        cases hcase : e0.2.role with
        | Host => exact absurd hcase (hnohost e0 hm0)
        | Guest => exact absurd hcase (hg e0 hm0)
        | Spectator => rfl
      refine ⟨e0.1, e0.2, ?_, ?_, ?_, fun _ => hrole⟩
      · simpa using hm0
      · rw [hfall, hsplit]
        rfl
      · intro hex
        obtain ⟨e, he, hge⟩ := hex
        exact absurd hge (hg e he)
  obtain ⟨hid, u, humem, hchoose, hg1, hg2⟩ := hchosen
  have hndL : ((removeKey r.users sid).map Prod.fst).Nodup := removeKey_keys_nodup hnd sid
  have hlook : lookupKey (removeKey r.users sid) hid = some u :=
    lookupKey_of_mem_nodup hndL humem
  have hempty : ((removeKey r.users sid).isEmpty) = false := by
    cases hL : removeKey r.users sid with
    | nil => exact absurd hL hne1
    | cons a as => rfl
  have hall : (removeKey r.users sid).all (fun e => decide (e.2.role ≠ UserRole.Host)) = true :=
    List.all_eq_true.mpr (fun e he => decide_eq_true (hnohost e he))
  have hset : Room.set_role { r with users := removeKey r.users sid } UserRole.Host hid =
      Room.broadcast_state
        { r with users := setRoleInUsers (removeKey r.users sid) UserRole.Host hid } := by
    unfold Room.set_role
    simp only [hlook]
  have hleave : r.leave sid =
      ((Room.set_role { r with users := removeKey r.users sid } UserRole.Host hid).1,
       (Room.set_role { r with users := removeKey r.users sid } UserRole.Host hid).2 ++
       ((Room.set_role { r with users := removeKey r.users sid }
          UserRole.Host hid).1.broadcast_state).2) := by
    unfold Room.leave
    simp only [hu0, hempty, Room.choose_new_host_id, hchoose, hall, Room.broadcast_state_fst]
    simp
  refine ⟨hid, u, hlook, hg1, hg2, ?_, ?_⟩
  · rw [hleave, hset, Room.broadcast_state_fst]
    exact (lookupKey_map_setRole (removeKey r.users sid) hid UserRole.Host).trans
      (by rw [hlook]; rfl)
  · rw [hleave, hset, Room.broadcast_state_fst]
    apply List.mem_append_right
    have hument : (hid, ({ u with role := UserRole.Host } : RoomUser)) ∈
        setRoleInUsers (removeKey r.users sid) UserRole.Host hid :=
      List.mem_map.mpr ⟨(hid, u), humem, by simp⟩
    exact List.mem_map.mpr ⟨(hid, { u with role := UserRole.Host }), hument, rfl⟩

/-- C3 witness — room with creator A (Host, id 0) and joiner B (Guest,
id 1); A leaves, and the theorem yields the promoted remaining user. -/
theorem room_host_succession_witness :
    ∃ hid u,
      lookupKey (removeKey ((⟨10, true, "room", "pw",
          [(0, ⟨UserRole.Host, ⟨0, "A", 0⟩⟩), (1, ⟨UserRole.Guest, ⟨1, "B", 0⟩⟩)],
          none⟩ : Room)).users 0) hid = some u ∧
      ((∃ e ∈ removeKey ((⟨10, true, "room", "pw",
          [(0, ⟨UserRole.Host, ⟨0, "A", 0⟩⟩), (1, ⟨UserRole.Guest, ⟨1, "B", 0⟩⟩)],
          none⟩ : Room)).users 0, e.2.role = UserRole.Guest) → u.role = UserRole.Guest) ∧
      ((∀ e ∈ removeKey ((⟨10, true, "room", "pw",
          [(0, ⟨UserRole.Host, ⟨0, "A", 0⟩⟩), (1, ⟨UserRole.Guest, ⟨1, "B", 0⟩⟩)],
          none⟩ : Room)).users 0, e.2.role ≠ UserRole.Guest) → u.role = UserRole.Spectator) ∧
      lookupKey ((⟨10, true, "room", "pw",
          [(0, ⟨UserRole.Host, ⟨0, "A", 0⟩⟩), (1, ⟨UserRole.Guest, ⟨1, "B", 0⟩⟩)],
          none⟩ : Room).leave 0).1.users hid = some { u with role := UserRole.Host } ∧
      (hid, SessionMsg.RoomStateMsg ((⟨10, true, "room", "pw",
          [(0, ⟨UserRole.Host, ⟨0, "A", 0⟩⟩), (1, ⟨UserRole.Guest, ⟨1, "B", 0⟩⟩)],
          none⟩ : Room).leave 0).1.get_state) ∈
        ((⟨10, true, "room", "pw",
          [(0, ⟨UserRole.Host, ⟨0, "A", 0⟩⟩), (1, ⟨UserRole.Guest, ⟨1, "B", 0⟩⟩)],
          none⟩ : Room).leave 0).2 :=
  room_host_succession
    ⟨10, true, "room", "pw",
      [(0, ⟨UserRole.Host, ⟨0, "A", 0⟩⟩), (1, ⟨UserRole.Guest, ⟨1, "B", 0⟩⟩)], none⟩ 0
    (by decide) (by decide) (by decide) (by decide)
